import Mathlib

/-!
Shallow embedding of the Photo-Enhancer application logic.

The repository holds two near-identical variants of the same single-file
application: `src/index.tsx` (embedded below in namespace `Main`) and
`src/unnamed/part_000` (embedded in namespace `Variant`). Both variants
share the response model, the prompt fragments and the validation limits,
which are therefore defined once at the top level. State handlers are
translated as pure state-transition functions; the external generative
call is represented by a `CallOutcome` argument (the response the call
returned, or the message of the error it threw), and each request handler
returns the new state together with the instruction text it sent
(`none` when no call was made).
-/

namespace PhotoEnhancer

/-- JS `String.prototype.startsWith` helper on char lists: `leadsWith pat l`
is true when `pat` is an initial run of `l`. -/
def leadsWith : List Char → List Char → Bool
  | [], _ => true
  | _ :: _, [] => false
  | p :: ps, c :: cs => p == c && leadsWith ps cs

/-- Models JS `s.startsWith(pat)`. -/
def strStartsWith (s pat : String) : Bool :=
  leadsWith pat.data s.data

/-- Substring occurrence on char lists: true when `pat` occurs contiguously
inside the second list. -/
def listIncludes (pat : List Char) : List Char → Bool
  | [] => pat.isEmpty
  | c :: cs => leadsWith pat (c :: cs) || listIncludes pat cs

/-- Models JS `s.includes(pat)`. -/
def strIncludes (s pat : String) : Bool :=
  listIncludes pat.data s.data

/-- Drop leading whitespace from a char list. -/
def trimLead : List Char → List Char
  | [] => []
  | c :: cs => if c.isWhitespace then trimLead cs else c :: cs

/-- Models JS `s.trim()`: whitespace removed from both ends. -/
def strTrim (s : String) : String :=
  ⟨trimLead ((trimLead s.data.reverse).reverse)⟩

/-- `src/index.tsx` line 11 / `part_000` line 11: the default prompt. -/
def DEFAULT_PROMPT : String :=
  "Improve image quality, lighting, sharpness, color, and details without making it look artificial. Enhance the photo to make it look its best while maintaining a natural appearance."

/-- `MAX_FILE_SIZE_BYTES = 10 * 1024 * 1024` (both variants). -/
def MAX_FILE_SIZE_BYTES : Nat := 10 * 1024 * 1024

/-- A candidate file: declared media type, byte size, and the data URL that
`FileReader.readAsDataURL` would produce for it. -/
structure FileRec where
  type : String
  size : Nat
  dataUrl : String
deriving DecidableEq, Repr

/-- Inline binary payload of a response segment: base64 data plus the media
type the service reports. -/
structure InlineData where
  data : String
  mimeType : String
deriving DecidableEq, Repr

/-- One content segment of the external response: it may carry inline binary
image data, and it may carry text. -/
structure Part where
  inlineData : Option InlineData
  text : Option String
deriving DecidableEq, Repr

/-- The external response as the handlers read it:
`response.candidates?.[0]?.content?.parts` (absent when any link of the
optional chain is missing) and the SDK convenience accessor `response.text`. -/
structure GenResponse where
  parts : Option (List Part)
  text : Option String
deriving DecidableEq, Repr

/-- Result of awaiting the external call: a response, or a thrown error
carrying its message string. -/
inductive CallOutcome where
  | ok (resp : GenResponse)
  | threw (msg : String)
deriving DecidableEq, Repr

/-- The `for (const part of parts) if (part.inlineData) ... break` scan:
first segment with inline data wins. -/
def findFirstImage : List Part → Option InlineData
  | [] => none
  | p :: ps =>
    match p.inlineData with
    | some d => some d
    | none => findFirstImage ps

/-- Scan of the whole response: no parts array means no image found. -/
def respFirstImage (r : GenResponse) : Option InlineData :=
  match r.parts with
  | some ps => findFirstImage ps
  | none => none

/-- The data URL built from a found segment:
`data:${mimeType};base64,${base64Image}`. -/
def dataUrlOf (d : InlineData) : String :=
  "data:" ++ d.mimeType ++ ";base64," ++ d.data

/-- `response.text?.trim() || "No text response."` — the trimmed text when
present and nonempty after trimming, the placeholder otherwise. -/
def textOrPlaceholder : Option String → String
  | some s => if strTrim s = "" then "No text response." else strTrim s
  | none => "No text response."

/-- Message of the error thrown when no segment carries image data:
both variants build it the same way. -/
def noImageMessage (t : Option String) : String :=
  "The AI did not return an image. Response: \"" ++ textOrPlaceholder t ++ "\""

/-- `src/index.tsx` lines 188 and 285: the two credential substrings. -/
def isCredentialError (msg : String) : Bool :=
  strIncludes msg "API Key must be set" || strIncludes msg "Requested entity was not found"

/-- `src/index.tsx` lines 189 and 286: the re-authentication error text. -/
def credentialErrorText : String :=
  "Your API Key is not valid or has been revoked. Please select a new key to continue."

/-- Fragment appended when `upscaleFactor !== 'none'` (interpolates the
factor). -/
def upscaleFragment (factor : String) : String :=
  " Increase the resolution of the image by " ++ factor ++ " while keeping details sharp and natural."

/-- Fragment appended when `isDeblurEnabled` (only `src/index.tsx` has the
deblur toggle). -/
def deblurFragment : String :=
  " This is a high-priority instruction: Remove all types of blur from the image, including motion blur, focus blur, and camera shake. The final image must be exceptionally sharp and clear, with all details brought into crisp focus."

/-- Fragment appended when `isRestoreEnabled` (multi-line template literal,
identical in both variants). -/
def restoreFragment : String :=
  " Perform an expert-level, full restoration of this photograph. This is a high-priority instruction. Your task is to meticulously repair all signs of damage and degradation.\n1. **Fix Physical Damage:** Completely remove all scratches, tears, creases, stains, and water damage.\n2. **Correct Blur & Sharpness:** This is critical. Analyze the image for any blurriness (motion blur, out-of-focus areas) and apply advanced sharpening techniques to bring all details into sharp, clear focus.\n3. **Remove Noise & Artifacts:** Eliminate all digital noise, film grain, and compression artifacts (like JPEG blocking).\n4. **Restore Colors:** Correct any color fading, yellowing, or discoloration. Restore the original, vibrant, and accurate colors.\n5. **Final Output:** The result must be a clean, sharp, fully restored image that looks like it was captured with a modern, high-resolution digital camera. Do not leave any original flaws."

/-- Fragment appended when `isFaceEnhancementEnabled` (identical in both
variants). -/
def faceFragment : String :=
  " Generate an ultra-realistic face. Focus on hyper-detailed skin texture, including pores and fine lines. Create lifelike eyes with natural depth and reflections. Render individual hair and eyebrow strands with sharp precision. The result should be indistinguishable from a high-resolution photograph."

/-- Error text for a rejected media type (both variants, both pipelines). -/
def invalidTypeMsg : String := "Please upload a valid image file (JPG, PNG, WEBP)."

/-- Error text for an oversized file, with the 10 MB limit interpolated. -/
def tooLargeMsg : String := "File size exceeds the 10MB limit."

namespace Main

/-- The `useState` fields of the `App` component in `src/index.tsx` that the
handlers read or write (rendering-only state such as `showLanding` and
`activeMode` is omitted). -/
structure AppState where
  apiKeyReady : Bool
  originalImage : Option String
  imageFile : Option FileRec
  enhancedImage : Option String
  prompt : String
  isLoading : Bool
  error : Option String
  isFaceEnhancementEnabled : Bool
  isRestoreEnabled : Bool
  isDeblurEnabled : Bool
  upscaleFactor : String
  bgOriginalImage : Option String
  bgImageFile : Option FileRec
  bgRemovedImage : Option String
  bgIsLoading : Bool
  bgError : Option String
deriving DecidableEq, Repr

/-- The state before any interaction: nothing loaded, default prompt, all
toggles off. -/
def initialState : AppState :=
  { apiKeyReady := false
    originalImage := none
    imageFile := none
    enhancedImage := none
    prompt := DEFAULT_PROMPT
    isLoading := false
    error := none
    isFaceEnhancementEnabled := false
    isRestoreEnabled := false
    isDeblurEnabled := false
    upscaleFactor := "none"
    bgOriginalImage := none
    bgImageFile := none
    bgRemovedImage := none
    bgIsLoading := false
    bgError := none }

/-- `handleImageUpload` of `src/index.tsx` lines 92-118: type check, size
check, then load the file and reset every downstream field (the
asynchronous `reader.onloadend` body is taken as part of the success
branch). -/
def handleImageUpload (s : AppState) (file : FileRec) : AppState :=
  if ¬ strStartsWith file.type "image/" then
    { s with error := some invalidTypeMsg }
  else if file.size > MAX_FILE_SIZE_BYTES then
    { s with error := some tooLargeMsg }
  else
    { s with imageFile := some file
             originalImage := some file.dataUrl
             enhancedImage := none
             error := none
             prompt := DEFAULT_PROMPT
             isFaceEnhancementEnabled := false
             isRestoreEnabled := false
             isDeblurEnabled := false
             upscaleFactor := "none" }

/-- Prompt assembly of `src/index.tsx` lines 132-150: start from the user
prompt, then conditionally append the resolution, deblur, restoration and
face fragments, in that order. -/
def buildFinalPrompt (prompt upscaleFactor : String)
    (isDeblurEnabled isRestoreEnabled isFaceEnhancementEnabled : Bool) : String :=
  let finalPrompt := prompt
  let finalPrompt := if upscaleFactor ≠ "none" then finalPrompt ++ upscaleFragment upscaleFactor else finalPrompt
  let finalPrompt := if isDeblurEnabled then finalPrompt ++ deblurFragment else finalPrompt
  let finalPrompt := if isRestoreEnabled then finalPrompt ++ restoreFragment else finalPrompt
  let finalPrompt := if isFaceEnhancementEnabled then finalPrompt ++ faceFragment else finalPrompt
  finalPrompt

/-- The composite instruction the enhance handler would send from a given
state. -/
def statePrompt (s : AppState) : String :=
  buildFinalPrompt s.prompt s.upscaleFactor s.isDeblurEnabled s.isRestoreEnabled s.isFaceEnhancementEnabled

/-- One invocation of a toggle setter from the UI (`setIsFaceEnhancementEnabled`,
`setIsRestoreEnabled`, `setIsDeblurEnabled`, `setUpscaleFactor`). -/
inductive ToggleEvent where
  | setFaceEnhancement (b : Bool)
  | setRestore (b : Bool)
  | setDeblur (b : Bool)
  | setUpscaleFactor (v : String)
deriving DecidableEq, Repr

/-- Effect of one toggle setter on the state. -/
def applyToggle (s : AppState) : ToggleEvent → AppState
  | .setFaceEnhancement b => { s with isFaceEnhancementEnabled := b }
  | .setRestore b => { s with isRestoreEnabled := b }
  | .setDeblur b => { s with isDeblurEnabled := b }
  | .setUpscaleFactor v => { s with upscaleFactor := v }

/-- Effect of a sequence of toggle setters, applied in order. -/
def applyToggles (s : AppState) (es : List ToggleEvent) : AppState :=
  es.foldl applyToggle s

/-- The `catch` block of `handleEnhanceClick`, lines 185-193: credential
substrings trigger the re-authentication state, anything else surfaces the
raw message. -/
def enhanceCatch (s : AppState) (msg : String) : AppState :=
  if isCredentialError msg then
    { s with error := some credentialErrorText, apiKeyReady := false }
  else
    { s with error := some ("An error occurred during enhancement: " ++ msg) }

/-- `handleEnhanceClick` of `src/index.tsx` lines 120-197 as a state
transition. The second component is the composite instruction sent to the
external service, `none` when the guard returned before any call. -/
def handleEnhanceClick (s : AppState) (outcome : CallOutcome) : AppState × Option String :=
  if s.imageFile = none ∨ s.prompt = "" then (s, none)
  else
    let finalPrompt := statePrompt s
    let s1 : AppState := { s with isLoading := true, error := none, enhancedImage := none }
    match outcome with
    | .threw msg => ({ enhanceCatch s1 msg with isLoading := false }, some finalPrompt)
    | .ok resp =>
      match respFirstImage resp with
      | some d =>
        ({ s1 with enhancedImage := some (dataUrlOf d), isLoading := false }, some finalPrompt)
      | none =>
        ({ enhanceCatch s1 (noImageMessage resp.text) with isLoading := false }, some finalPrompt)

/-- `handleReset` of `src/index.tsx` lines 199-213. -/
def handleReset (s : AppState) : AppState :=
  { s with originalImage := none
           imageFile := none
           enhancedImage := none
           error := none
           isLoading := false
           prompt := DEFAULT_PROMPT
           isFaceEnhancementEnabled := false
           isRestoreEnabled := false
           isDeblurEnabled := false
           upscaleFactor := "none" }

/-- The fixed background-removal instruction of `src/index.tsx` line 249. -/
def bgRemovePrompt : String :=
  "CRITICAL TASK: Your only job is to remove the background from this image. The main subject must be perfectly isolated with clean edges. The output format MUST be a PNG with a fully transparent (alpha) background. Do not output any other format or any background color."

/-- The `catch` block of `handleRemoveBackgroundClick`, lines 282-290. -/
def bgCatch (s : AppState) (msg : String) : AppState :=
  if isCredentialError msg then
    { s with bgError := some credentialErrorText, apiKeyReady := false }
  else
    { s with bgError := some ("An error occurred: " ++ msg) }

/-- `handleRemoveBackgroundClick` of `src/index.tsx` lines 239-294: same
shape as the enhance handler, but the media type of the recorded data URL
is forced to `image/png` (line 269) instead of the reported one. -/
def handleRemoveBackgroundClick (s : AppState) (outcome : CallOutcome) : AppState × Option String :=
  if s.bgImageFile = none then (s, none)
  else
    let s1 : AppState := { s with bgIsLoading := true, bgError := none, bgRemovedImage := none }
    match outcome with
    | .threw msg => ({ bgCatch s1 msg with bgIsLoading := false }, some bgRemovePrompt)
    | .ok resp =>
      match respFirstImage resp with
      | some d =>
        ({ s1 with bgRemovedImage := some ("data:image/png;base64," ++ d.data), bgIsLoading := false },
          some bgRemovePrompt)
      | none =>
        ({ bgCatch s1 (noImageMessage resp.text) with bgIsLoading := false }, some bgRemovePrompt)

end Main

namespace Variant

/-- The `useState` fields of the `App` component in `src/unnamed/part_000`:
this variant has no API-key state and no deblur toggle. -/
structure AppState where
  originalImage : Option String
  imageFile : Option FileRec
  enhancedImage : Option String
  prompt : String
  isLoading : Bool
  error : Option String
  isFaceEnhancementEnabled : Bool
  isRestoreEnabled : Bool
  upscaleFactor : String
  bgOriginalImage : Option String
  bgImageFile : Option FileRec
  bgRemovedImage : Option String
  bgIsLoading : Bool
  bgError : Option String
deriving DecidableEq, Repr

/-- The state before any interaction in the `part_000` variant. -/
def initialState : AppState :=
  { originalImage := none
    imageFile := none
    enhancedImage := none
    prompt := DEFAULT_PROMPT
    isLoading := false
    error := none
    isFaceEnhancementEnabled := false
    isRestoreEnabled := false
    upscaleFactor := "none"
    bgOriginalImage := none
    bgImageFile := none
    bgRemovedImage := none
    bgIsLoading := false
    bgError := none }

/-- `handleImageUpload` of `part_000` lines 51-76: identical to the main
variant except that there is no deblur toggle to reset. -/
def handleImageUpload (s : AppState) (file : FileRec) : AppState :=
  if ¬ strStartsWith file.type "image/" then
    { s with error := some invalidTypeMsg }
  else if file.size > MAX_FILE_SIZE_BYTES then
    { s with error := some tooLargeMsg }
  else
    { s with imageFile := some file
             originalImage := some file.dataUrl
             enhancedImage := none
             error := none
             prompt := DEFAULT_PROMPT
             isFaceEnhancementEnabled := false
             isRestoreEnabled := false
             upscaleFactor := "none" }

/-- Prompt assembly of `part_000` lines 90-105: resolution, restoration,
face — this variant has no deblur fragment. -/
def buildFinalPrompt (prompt upscaleFactor : String)
    (isRestoreEnabled isFaceEnhancementEnabled : Bool) : String :=
  let finalPrompt := prompt
  let finalPrompt := if upscaleFactor ≠ "none" then finalPrompt ++ upscaleFragment upscaleFactor else finalPrompt
  let finalPrompt := if isRestoreEnabled then finalPrompt ++ restoreFragment else finalPrompt
  let finalPrompt := if isFaceEnhancementEnabled then finalPrompt ++ faceFragment else finalPrompt
  finalPrompt

/-- The composite instruction the variant enhance handler would send. -/
def statePrompt (s : AppState) : String :=
  buildFinalPrompt s.prompt s.upscaleFactor s.isRestoreEnabled s.isFaceEnhancementEnabled

/-- `handleEnhanceClick` of `part_000` lines 78-146: the `catch` block
(lines 140-142) has no credential-substring inspection — every error
surfaces with its raw message. -/
def handleEnhanceClick (s : AppState) (outcome : CallOutcome) : AppState × Option String :=
  if s.imageFile = none ∨ s.prompt = "" then (s, none)
  else
    let finalPrompt := statePrompt s
    let s1 : AppState := { s with isLoading := true, error := none, enhancedImage := none }
    match outcome with
    | .threw msg =>
      ({ s1 with error := some ("An error occurred during enhancement: " ++ msg), isLoading := false },
        some finalPrompt)
    | .ok resp =>
      match respFirstImage resp with
      | some d =>
        ({ s1 with enhancedImage := some (dataUrlOf d), isLoading := false }, some finalPrompt)
      | none =>
        ({ s1 with
            error := some ("An error occurred during enhancement: " ++ noImageMessage resp.text)
            isLoading := false }, some finalPrompt)

/-- `handleReset` of `part_000` lines 148-161. -/
def handleReset (s : AppState) : AppState :=
  { s with originalImage := none
           imageFile := none
           enhancedImage := none
           error := none
           isLoading := false
           prompt := DEFAULT_PROMPT
           isFaceEnhancementEnabled := false
           isRestoreEnabled := false
           upscaleFactor := "none" }

/-- The fixed background-removal instruction of `part_000` line 197. -/
def bgRemovePrompt : String :=
  "Your task is to perfectly and accurately remove the background of the provided image. Isolate the main subject with clean, precise edges. The only output should be an image. The output image format MUST be PNG, and its background MUST be transparent. Do not return any other format or a solid background."

/-- `handleRemoveBackgroundClick` of `part_000` lines 187-235: unlike the
main variant, line 216 records the media type the service reports
(`const mimeType = part.inlineData.mimeType`) — nothing is forced to PNG —
and the `catch` block has no credential inspection. -/
def handleRemoveBackgroundClick (s : AppState) (outcome : CallOutcome) : AppState × Option String :=
  if s.bgImageFile = none then (s, none)
  else
    let s1 : AppState := { s with bgIsLoading := true, bgError := none, bgRemovedImage := none }
    match outcome with
    | .threw msg =>
      ({ s1 with bgError := some ("An error occurred: " ++ msg), bgIsLoading := false },
        some bgRemovePrompt)
    | .ok resp =>
      match respFirstImage resp with
      | some d =>
        ({ s1 with bgRemovedImage := some (dataUrlOf d), bgIsLoading := false }, some bgRemovePrompt)
      | none =>
        ({ s1 with bgError := some ("An error occurred: " ++ noImageMessage resp.text), bgIsLoading := false },
          some bgRemovePrompt)

end Variant

/-! Sample values used by witnesses and counterexamples. -/

/-- A small well-formed PNG candidate file. -/
def sampleFile : FileRec := { type := "image/png", size := 1000, dataUrl := "data:image/png;base64,AAAA" }

/-- A main-variant state with an image loaded in both pipelines and the
default prompt. -/
def loadedState : Main.AppState :=
  { Main.initialState with
      apiKeyReady := true
      originalImage := some sampleFile.dataUrl
      imageFile := some sampleFile
      bgOriginalImage := some sampleFile.dataUrl
      bgImageFile := some sampleFile }

/-- A `part_000`-variant state with an image loaded in both pipelines. -/
def variantLoadedState : Variant.AppState :=
  { Variant.initialState with
      originalImage := some sampleFile.dataUrl
      imageFile := some sampleFile
      bgOriginalImage := some sampleFile.dataUrl
      bgImageFile := some sampleFile }

/-- A text-only response segment. -/
def txtPart : Part := { inlineData := none, text := some "Here is your image." }

/-- An inline-image segment whose reported media type is JPEG. -/
def imgPartA : Part := { inlineData := some { data := "AAAA", mimeType := "image/jpeg" }, text := none }

/-- A second inline-image segment, PNG-typed, used to show later segments are
ignored. -/
def imgPartB : Part := { inlineData := some { data := "BBBB", mimeType := "image/png" }, text := none }

/-- A GIF candidate file: an image type outside the advertised PNG, JPEG,
WEBP set. -/
def gifFile : FileRec := { type := "image/gif", size := 1000, dataUrl := "data:image/gif;base64,R0" }

/-- A non-image candidate file. -/
def plainTextFile : FileRec := { type := "text/plain", size := 1000, dataUrl := "data:text/plain;base64,AA" }

/-- A non-image candidate file that is also over the 10 MiB limit. -/
def oversizedTextFile : FileRec := { type := "text/plain", size := 10 * 1024 * 1024 + 1, dataUrl := "x" }

/-- A PNG candidate file one byte over the 10 MiB limit. -/
def oversizedPngFile : FileRec := { type := "image/png", size := 10 * 1024 * 1024 + 1, dataUrl := "y" }

/-- A PNG candidate file of exactly 10 MiB. -/
def exactLimitPngFile : FileRec := { type := "image/png", size := 10 * 1024 * 1024, dataUrl := "z" }

end PhotoEnhancer

namespace PhotoEnhancer

/-! Helper lemmas about the response scan and the catch blocks. -/

theorem findFirstImage_append_of_none (pre rest : List Part)
    (h : ∀ q ∈ pre, q.inlineData = none) :
    findFirstImage (pre ++ rest) = findFirstImage rest := by
  induction pre with
  | nil => rfl
  | cons p ps ih =>
    have hp : p.inlineData = none := h p (by simp)
    have hs : ∀ q ∈ ps, q.inlineData = none := fun q hq => h q (by simp [hq])
    simp only [List.cons_append, findFirstImage, hp]
    exact ih hs

theorem findFirstImage_of_all_none (ps : List Part)
    (h : ∀ q ∈ ps, q.inlineData = none) :
    findFirstImage ps = none := by
  induction ps with
  | nil => rfl
  | cons p ps ih =>
    have hp : p.inlineData = none := h p (by simp)
    simp only [findFirstImage, hp]
    exact ih (fun q hq => h q (by simp [hq]))

theorem enhanceCatch_enhancedImage (s : Main.AppState) (msg : String) :
    (Main.enhanceCatch s msg).enhancedImage = s.enhancedImage := by
  cases hc : isCredentialError msg <;> simp [Main.enhanceCatch, hc]

/-- Claim C1: prompt assembly is a deterministic pure function of the base
prompt and the toggle settings — the composite string is the base followed
by each fragment exactly when its toggle is active, in the fixed order
resolution, deblur, restoration, face; and the result depends only on the
final toggle values, not on the order in which the setters ran. -/
theorem prompt_assembly_deterministic_ordered :
    (∀ (p u : String) (d r f : Bool),
      Main.buildFinalPrompt p u d r f =
        p ++ (if u ≠ "none" then upscaleFragment u else "")
          ++ (if d then deblurFragment else "")
          ++ (if r then restoreFragment else "")
          ++ (if f then faceFragment else ""))
    ∧ (∀ (s : Main.AppState) (es1 es2 : List Main.ToggleEvent),
        Main.applyToggles s es1 = Main.applyToggles s es2 →
          Main.statePrompt (Main.applyToggles s es1)
            = Main.statePrompt (Main.applyToggles s es2)) := by
  constructor
  · intro p u d r f
    by_cases hu : u = "none" <;> cases d <;> cases r <;> cases f <;>
      simp [Main.buildFinalPrompt, hu, String.append_assoc, String.append_empty]
  · intro s es1 es2 h
    rw [h]

/-- Witness for C1 at the example of spec section 8: base prompt
"Improve lighting" with resolution 4x and restore on, plus one concrete
order-independence instance. -/
theorem prompt_assembly_witness :
    (Main.buildFinalPrompt "Improve lighting" "4x" false true false =
        "Improve lighting" ++ (if ("4x" : String) ≠ "none" then upscaleFragment "4x" else "")
          ++ (if false then deblurFragment else "")
          ++ (if true then restoreFragment else "")
          ++ (if false then faceFragment else ""))
    ∧ Main.statePrompt (Main.applyToggles Main.initialState
          [Main.ToggleEvent.setRestore true, Main.ToggleEvent.setFaceEnhancement true])
        = Main.statePrompt (Main.applyToggles Main.initialState
          [Main.ToggleEvent.setFaceEnhancement true, Main.ToggleEvent.setRestore true]) :=
  ⟨prompt_assembly_deterministic_ordered.1 "Improve lighting" "4x" false true false,
   prompt_assembly_deterministic_ordered.2 Main.initialState
     [Main.ToggleEvent.setRestore true, Main.ToggleEvent.setFaceEnhancement true]
     [Main.ToggleEvent.setFaceEnhancement true, Main.ToggleEvent.setRestore true] rfl⟩

end PhotoEnhancer

namespace PhotoEnhancer

/-- Claim C2: when the ordered segment list of the response contains at
least one inline-image segment, the request operation records the
ResultImage from the first such segment, data and media type included, and
segments after that first image segment have no effect on the result — in
both variants of the application. -/
theorem first_image_segment_wins
    (s : Main.AppState) (hf : s.imageFile ≠ none) (hp : s.prompt ≠ "")
    (v : Variant.AppState) (hvf : v.imageFile ≠ none) (hvp : v.prompt ≠ "")
    (pre post post' : List Part) (img : Part) (d : InlineData)
    (himg : img.inlineData = some d)
    (hpre : ∀ q ∈ pre, q.inlineData = none)
    (t t' : Option String) :
    ((Main.handleEnhanceClick s (.ok ⟨some (pre ++ img :: post), t⟩)).1.enhancedImage
        = some (dataUrlOf d)
      ∧ Main.handleEnhanceClick s (.ok ⟨some (pre ++ img :: post), t⟩)
        = Main.handleEnhanceClick s (.ok ⟨some (pre ++ img :: post'), t'⟩))
    ∧ ((Variant.handleEnhanceClick v (.ok ⟨some (pre ++ img :: post), t⟩)).1.enhancedImage
        = some (dataUrlOf d)
      ∧ Variant.handleEnhanceClick v (.ok ⟨some (pre ++ img :: post), t⟩)
        = Variant.handleEnhanceClick v (.ok ⟨some (pre ++ img :: post'), t'⟩)) := by
  have h1 : respFirstImage ⟨some (pre ++ img :: post), t⟩ = some d := by
    simp [respFirstImage, findFirstImage_append_of_none pre _ hpre, findFirstImage, himg]
  have h2 : respFirstImage ⟨some (pre ++ img :: post'), t'⟩ = some d := by
    simp [respFirstImage, findFirstImage_append_of_none pre _ hpre, findFirstImage, himg]
  refine ⟨⟨?_, ?_⟩, ?_, ?_⟩
  · simp [Main.handleEnhanceClick, hf, hp, h1]
  · simp [Main.handleEnhanceClick, hf, hp, h1, h2]
  · simp [Variant.handleEnhanceClick, hvf, hvp, h1]
  · simp [Variant.handleEnhanceClick, hvf, hvp, h1, h2]

/-- Witness for C2: a text segment, then a JPEG image segment, then a
further PNG image segment — the JPEG segment wins and dropping or changing
what follows it changes nothing. -/
theorem first_image_segment_wins_witness :
    ((Main.handleEnhanceClick loadedState (.ok ⟨some ([txtPart] ++ imgPartA :: [imgPartB]), some "t"⟩)).1.enhancedImage
        = some (dataUrlOf { data := "AAAA", mimeType := "image/jpeg" })
      ∧ Main.handleEnhanceClick loadedState (.ok ⟨some ([txtPart] ++ imgPartA :: [imgPartB]), some "t"⟩)
        = Main.handleEnhanceClick loadedState (.ok ⟨some ([txtPart] ++ imgPartA :: []), none⟩))
    ∧ ((Variant.handleEnhanceClick variantLoadedState (.ok ⟨some ([txtPart] ++ imgPartA :: [imgPartB]), some "t"⟩)).1.enhancedImage
        = some (dataUrlOf { data := "AAAA", mimeType := "image/jpeg" })
      ∧ Variant.handleEnhanceClick variantLoadedState (.ok ⟨some ([txtPart] ++ imgPartA :: [imgPartB]), some "t"⟩)
        = Variant.handleEnhanceClick variantLoadedState (.ok ⟨some ([txtPart] ++ imgPartA :: []), none⟩)) :=
  first_image_segment_wins loadedState (by decide) (by decide)
    variantLoadedState (by decide) (by decide)
    [txtPart] [imgPartB] [] imgPartA { data := "AAAA", mimeType := "image/jpeg" }
    (by decide) (by decide) (some "t") none

/-- Counterexample to C3: in the `src/index.tsx` variant a no-image
response whose text contains the credential substring API Key must be set
does not surface a reason built from that text — the thrown no-image
message inherits the substring, the catch block at lines 188-190 matches
it, and the user sees the fixed re-authentication text while the
API-key-ready flag is cleared. The displayed message differs from the
text-built reason and does not even contain the response text. -/
theorem main_no_image_credential_hijack :
    (Main.handleEnhanceClick loadedState (.ok ⟨some [txtPart], some "API Key must be set"⟩)).1.error
        = some credentialErrorText
      ∧ (Main.handleEnhanceClick loadedState (.ok ⟨some [txtPart], some "API Key must be set"⟩)).1.apiKeyReady
        = false
      ∧ some credentialErrorText
        ≠ some ("An error occurred during enhancement: " ++ noImageMessage (some "API Key must be set"))
      ∧ strIncludes credentialErrorText "API Key must be set" = false := by
  decide

/-- Claim C3 as amended: when no segment carries inline image data, the
request ends failed in both variants — no ResultImage, in-flight flag
cleared. In the `part_000` variant the displayed reason is always built
from the trimmed response text or the placeholder; in the `src/index.tsx`
variant that holds exactly when the resulting no-image message contains
neither credential substring — when it does contain one, the fixed
re-authentication text is displayed and the API-key-ready flag is cleared
instead. -/
theorem no_image_segment_fails
    (s : Main.AppState) (hf : s.imageFile ≠ none) (hp : s.prompt ≠ "")
    (v : Variant.AppState) (hvf : v.imageFile ≠ none) (hvp : v.prompt ≠ "")
    (parts : List Part) (hnone : ∀ q ∈ parts, q.inlineData = none) (t : Option String) :
    ((Main.handleEnhanceClick s (.ok ⟨some parts, t⟩)).1.enhancedImage = none
      ∧ (Main.handleEnhanceClick s (.ok ⟨some parts, t⟩)).1.isLoading = false
      ∧ (isCredentialError (noImageMessage t) = false →
          (Main.handleEnhanceClick s (.ok ⟨some parts, t⟩)).1.error
            = some ("An error occurred during enhancement: " ++ noImageMessage t))
      ∧ (isCredentialError (noImageMessage t) = true →
          (Main.handleEnhanceClick s (.ok ⟨some parts, t⟩)).1.error = some credentialErrorText
            ∧ (Main.handleEnhanceClick s (.ok ⟨some parts, t⟩)).1.apiKeyReady = false))
    ∧ ((Variant.handleEnhanceClick v (.ok ⟨some parts, t⟩)).1.enhancedImage = none
      ∧ (Variant.handleEnhanceClick v (.ok ⟨some parts, t⟩)).1.isLoading = false
      ∧ (Variant.handleEnhanceClick v (.ok ⟨some parts, t⟩)).1.error
          = some ("An error occurred during enhancement: " ++ noImageMessage t)) := by
  have h0 : respFirstImage ⟨some parts, t⟩ = none := by
    simp [respFirstImage, findFirstImage_of_all_none parts hnone]
  refine ⟨⟨?_, ?_, fun hc => ?_, fun hc => ⟨?_, ?_⟩⟩, ?_, ?_, ?_⟩
  · simp [Main.handleEnhanceClick, hf, hp, h0, enhanceCatch_enhancedImage]
  · simp [Main.handleEnhanceClick, hf, hp, h0]
  · simp [Main.handleEnhanceClick, hf, hp, h0, Main.enhanceCatch, hc]
  · simp [Main.handleEnhanceClick, hf, hp, h0, Main.enhanceCatch, hc]
  · simp [Main.handleEnhanceClick, hf, hp, h0, Main.enhanceCatch, hc]
  · simp [Variant.handleEnhanceClick, hvf, hvp, h0]
  · simp [Variant.handleEnhanceClick, hvf, hvp, h0]
  · simp [Variant.handleEnhanceClick, hvf, hvp, h0]

/-- Witness for the amended C3, exercising both branches: a harmless text
explanation surfaces as the text-built reason in both variants, and a text
containing a credential substring triggers the re-authentication state in
the main variant. -/
theorem no_image_segment_fails_witness :
    ((Main.handleEnhanceClick loadedState (.ok ⟨some [txtPart], some "I cannot do that."⟩)).1.enhancedImage = none
      ∧ (Main.handleEnhanceClick loadedState (.ok ⟨some [txtPart], some "I cannot do that."⟩)).1.error
          = some ("An error occurred during enhancement: " ++ noImageMessage (some "I cannot do that."))
      ∧ (Variant.handleEnhanceClick variantLoadedState (.ok ⟨some [txtPart], some "I cannot do that."⟩)).1.error
          = some ("An error occurred during enhancement: " ++ noImageMessage (some "I cannot do that.")))
    ∧ ((Main.handleEnhanceClick loadedState (.ok ⟨some [txtPart], some "API Key must be set"⟩)).1.error
          = some credentialErrorText
      ∧ (Main.handleEnhanceClick loadedState (.ok ⟨some [txtPart], some "API Key must be set"⟩)).1.apiKeyReady
          = false) :=
  ⟨⟨(no_image_segment_fails loadedState (by decide) (by decide)
      variantLoadedState (by decide) (by decide)
      [txtPart] (by decide) (some "I cannot do that.")).1.1,
    (no_image_segment_fails loadedState (by decide) (by decide)
      variantLoadedState (by decide) (by decide)
      [txtPart] (by decide) (some "I cannot do that.")).1.2.2.1 (by decide),
    (no_image_segment_fails loadedState (by decide) (by decide)
      variantLoadedState (by decide) (by decide)
      [txtPart] (by decide) (some "I cannot do that.")).2.2.2⟩,
   (no_image_segment_fails loadedState (by decide) (by decide)
      variantLoadedState (by decide) (by decide)
      [txtPart] (by decide) (some "API Key must be set")).1.2.2.2 (by decide)⟩

end PhotoEnhancer

namespace PhotoEnhancer

/-- Counterexample to C4: in the `part_000` variant, a background-removal
response whose inline segment reports media type image/jpeg is recorded
with that reported type — line 216 of `part_000` copies
`part.inlineData.mimeType` and nothing forces PNG. -/
theorem variant_bg_mime_not_forced_png :
    (Variant.handleRemoveBackgroundClick variantLoadedState (.ok ⟨some [imgPartA], none⟩)).1.bgRemovedImage
        = some "data:image/jpeg;base64,AAAA"
      ∧ (Variant.handleRemoveBackgroundClick variantLoadedState (.ok ⟨some [imgPartA], none⟩)).1.bgRemovedImage
        ≠ some "data:image/png;base64,AAAA" := by
  decide

/-- Claim C4 as amended: the forced-PNG rule holds in the `src/index.tsx`
variant — the recorded data URL always carries image/png, whatever the
service reports — while the `part_000` variant records the reported media
type unchanged. -/
theorem bg_media_type_by_variant
    (s : Main.AppState) (hbg : s.bgImageFile ≠ none)
    (v : Variant.AppState) (hvbg : v.bgImageFile ≠ none)
    (p : Part) (d : InlineData) (hd : p.inlineData = some d)
    (rest : List Part) (t : Option String) :
    (Main.handleRemoveBackgroundClick s (.ok ⟨some (p :: rest), t⟩)).1.bgRemovedImage
        = some ("data:image/png;base64," ++ d.data)
      ∧ (Variant.handleRemoveBackgroundClick v (.ok ⟨some (p :: rest), t⟩)).1.bgRemovedImage
        = some (dataUrlOf d) := by
  have h1 : respFirstImage ⟨some (p :: rest), t⟩ = some d := by
    simp [respFirstImage, findFirstImage, hd]
  constructor
  · simp [Main.handleRemoveBackgroundClick, hbg, h1]
  · simp [Variant.handleRemoveBackgroundClick, hvbg, h1]

/-- Witness for the amended C4: a JPEG-reported segment is recorded as
image/png by the main variant and as image/jpeg by the `part_000`
variant. -/
theorem bg_media_type_by_variant_witness :
    (Main.handleRemoveBackgroundClick loadedState (.ok ⟨some [imgPartA], none⟩)).1.bgRemovedImage
        = some ("data:image/png;base64," ++ "AAAA")
      ∧ (Variant.handleRemoveBackgroundClick variantLoadedState (.ok ⟨some [imgPartA], none⟩)).1.bgRemovedImage
        = some (dataUrlOf { data := "AAAA", mimeType := "image/jpeg" }) :=
  bg_media_type_by_variant loadedState (by decide) variantLoadedState (by decide)
    imgPartA { data := "AAAA", mimeType := "image/jpeg" } (by decide) [] none

/-- Counterexample to C5: a file of media type image/gif — outside the set
png, jpeg, webp — is accepted by ingestion, state mutated and no error,
because the code only checks that the type starts with image/. -/
theorem image_gif_accepted :
    (Main.handleImageUpload Main.initialState gifFile).imageFile = some gifFile
      ∧ (Main.handleImageUpload Main.initialState gifFile).error = none
      ∧ gifFile.type ≠ "image/png" ∧ gifFile.type ≠ "image/jpeg" ∧ gifFile.type ≠ "image/webp" := by
  decide

/-- Claim C5 as amended: ingestion rejects exactly the files whose declared
media type does not start with image/ — such a file fails with the
InvalidType error text and only the error field changes — while any type
with the image prefix, including ones outside png, jpeg, webp, passes the
type check; the png, jpeg, webp set is enforced only by the accept
attribute of the file picker. Both variants behave alike. -/
theorem non_image_type_rejected
    (s : Main.AppState) (file : FileRec) (h : strStartsWith file.type "image/" = false)
    (v : Variant.AppState) (vfile : FileRec) (hv : strStartsWith vfile.type "image/" = false) :
    Main.handleImageUpload s file = { s with error := some invalidTypeMsg }
      ∧ Variant.handleImageUpload v vfile = { v with error := some invalidTypeMsg } := by
  constructor
  · simp [Main.handleImageUpload, h]
  · simp [Variant.handleImageUpload, hv]

/-- Witness for the amended C5: a text/plain file is rejected with the
InvalidType text and nothing else changes, in both variants. -/
theorem non_image_type_rejected_witness :
    Main.handleImageUpload Main.initialState plainTextFile
        = { Main.initialState with error := some invalidTypeMsg }
      ∧ Variant.handleImageUpload Variant.initialState plainTextFile
        = { Variant.initialState with error := some invalidTypeMsg } :=
  non_image_type_rejected Main.initialState plainTextFile (by decide)
    Variant.initialState plainTextFile (by decide)

/-- Counterexample to C6: an oversized file whose type is not an image
fails with the InvalidType message, not the TooLarge one, because the type
check runs first. -/
theorem oversized_non_image_not_toolarge :
    oversizedTextFile.size > MAX_FILE_SIZE_BYTES
      ∧ (Main.handleImageUpload Main.initialState oversizedTextFile).error = some invalidTypeMsg
      ∧ invalidTypeMsg ≠ tooLargeMsg := by
  decide

/-- Claim C6 as amended: every candidate whose type passes the image check
and whose size exceeds 10 MiB fails with the TooLarge error text, leaving
every field but the error unchanged, and a valid-typed file of exactly
10 MiB passes the size check and is ingested; an oversized file with a
non-image type instead fails the earlier type check. -/
theorem oversized_image_rejected_toolarge
    (s : Main.AppState) (file : FileRec)
    (ht : strStartsWith file.type "image/" = true) (hs : file.size > MAX_FILE_SIZE_BYTES)
    (v : Variant.AppState) (vfile : FileRec)
    (hvt : strStartsWith vfile.type "image/" = true) (hvs : vfile.size > MAX_FILE_SIZE_BYTES)
    (g : FileRec) (hgt : strStartsWith g.type "image/" = true) (hgs : g.size = MAX_FILE_SIZE_BYTES) :
    Main.handleImageUpload s file = { s with error := some tooLargeMsg }
      ∧ Variant.handleImageUpload v vfile = { v with error := some tooLargeMsg }
      ∧ Main.handleImageUpload s g =
          { s with imageFile := some g, originalImage := some g.dataUrl, enhancedImage := none,
                   error := none, prompt := DEFAULT_PROMPT, isFaceEnhancementEnabled := false,
                   isRestoreEnabled := false, isDeblurEnabled := false, upscaleFactor := "none" } := by
  refine ⟨?_, ?_, ?_⟩
  · simp [Main.handleImageUpload, ht, hs]
  · simp [Variant.handleImageUpload, hvt, hvs]
  · have hng : ¬ (g.size > MAX_FILE_SIZE_BYTES) := by omega
    simp [Main.handleImageUpload, hgt, hng]

/-- Witness for the amended C6: a PNG one byte over the limit is rejected
in both variants, and a PNG of exactly 10 MiB is ingested. -/
theorem oversized_image_rejected_toolarge_witness :
    Main.handleImageUpload Main.initialState oversizedPngFile
        = { Main.initialState with error := some tooLargeMsg }
      ∧ Variant.handleImageUpload Variant.initialState oversizedPngFile
        = { Variant.initialState with error := some tooLargeMsg }
      ∧ Main.handleImageUpload Main.initialState exactLimitPngFile
        = { Main.initialState with
              imageFile := some exactLimitPngFile,
              originalImage := some exactLimitPngFile.dataUrl, enhancedImage := none,
              error := none, prompt := DEFAULT_PROMPT, isFaceEnhancementEnabled := false,
              isRestoreEnabled := false, isDeblurEnabled := false, upscaleFactor := "none" } :=
  oversized_image_rejected_toolarge Main.initialState oversizedPngFile (by decide) (by decide)
    Variant.initialState oversizedPngFile (by decide) (by decide)
    exactLimitPngFile (by decide) (by decide)

/-- Claim C7: every candidate that passes both checks is ingested — the
file becomes the SourceImage, its data URL the displayed original, and all
downstream derived state is reset: result cleared, prompt back to the
default, every toggle off, error cleared. Both variants behave alike. -/
theorem valid_upload_resets_downstream
    (s : Main.AppState) (file : FileRec)
    (ht : strStartsWith file.type "image/" = true) (hs : file.size ≤ MAX_FILE_SIZE_BYTES)
    (v : Variant.AppState) (vfile : FileRec)
    (hvt : strStartsWith vfile.type "image/" = true) (hvs : vfile.size ≤ MAX_FILE_SIZE_BYTES) :
    Main.handleImageUpload s file =
        { s with imageFile := some file, originalImage := some file.dataUrl, enhancedImage := none,
                 error := none, prompt := DEFAULT_PROMPT, isFaceEnhancementEnabled := false,
                 isRestoreEnabled := false, isDeblurEnabled := false, upscaleFactor := "none" }
      ∧ Variant.handleImageUpload v vfile =
        { v with imageFile := some vfile, originalImage := some vfile.dataUrl, enhancedImage := none,
                 error := none, prompt := DEFAULT_PROMPT, isFaceEnhancementEnabled := false,
                 isRestoreEnabled := false, upscaleFactor := "none" } := by
  have h1 : ¬ (file.size > MAX_FILE_SIZE_BYTES) := by omega
  have h2 : ¬ (vfile.size > MAX_FILE_SIZE_BYTES) := by omega
  constructor
  · simp [Main.handleImageUpload, ht, h1]
  · simp [Variant.handleImageUpload, hvt, h2]

/-- Witness for C7: uploading a small PNG over an already-loaded state
replaces the source and resets the downstream fields in both variants. -/
theorem valid_upload_resets_downstream_witness :
    Main.handleImageUpload loadedState sampleFile =
        { loadedState with
            imageFile := some sampleFile, originalImage := some sampleFile.dataUrl,
            enhancedImage := none, error := none, prompt := DEFAULT_PROMPT,
            isFaceEnhancementEnabled := false, isRestoreEnabled := false, isDeblurEnabled := false,
            upscaleFactor := "none" }
      ∧ Variant.handleImageUpload variantLoadedState sampleFile =
        { variantLoadedState with
            imageFile := some sampleFile, originalImage := some sampleFile.dataUrl,
            enhancedImage := none, error := none, prompt := DEFAULT_PROMPT,
            isFaceEnhancementEnabled := false, isRestoreEnabled := false,
            upscaleFactor := "none" } :=
  valid_upload_resets_downstream loadedState sampleFile (by decide) (by decide)
    variantLoadedState sampleFile (by decide) (by decide)

end PhotoEnhancer

namespace PhotoEnhancer

/-- Claim C8: Reset from any state clears the source, the result, the error
and the in-flight flag, restores the default prompt and turns every toggle
off, and applying it twice gives the same state as applying it once — in
both variants of the application. -/
theorem reset_yields_empty_idempotent :
    (∀ s : Main.AppState,
      (Main.handleReset s).originalImage = none
        ∧ (Main.handleReset s).imageFile = none
        ∧ (Main.handleReset s).enhancedImage = none
        ∧ (Main.handleReset s).error = none
        ∧ (Main.handleReset s).isLoading = false
        ∧ (Main.handleReset s).prompt = DEFAULT_PROMPT
        ∧ (Main.handleReset s).isFaceEnhancementEnabled = false
        ∧ (Main.handleReset s).isRestoreEnabled = false
        ∧ (Main.handleReset s).isDeblurEnabled = false
        ∧ (Main.handleReset s).upscaleFactor = "none"
        ∧ Main.handleReset (Main.handleReset s) = Main.handleReset s)
    ∧ (∀ v : Variant.AppState,
      (Variant.handleReset v).originalImage = none
        ∧ (Variant.handleReset v).imageFile = none
        ∧ (Variant.handleReset v).enhancedImage = none
        ∧ (Variant.handleReset v).error = none
        ∧ (Variant.handleReset v).isLoading = false
        ∧ (Variant.handleReset v).prompt = DEFAULT_PROMPT
        ∧ (Variant.handleReset v).isFaceEnhancementEnabled = false
        ∧ (Variant.handleReset v).isRestoreEnabled = false
        ∧ (Variant.handleReset v).upscaleFactor = "none"
        ∧ Variant.handleReset (Variant.handleReset v) = Variant.handleReset v) := by
  constructor
  · intro s
    exact ⟨rfl, rfl, rfl, rfl, rfl, rfl, rfl, rfl, rfl, rfl, rfl⟩
  · intro v
    exact ⟨rfl, rfl, rfl, rfl, rfl, rfl, rfl, rfl, rfl, rfl⟩

/-- Counterexample to C9: in the `part_000` variant a thrown error whose
message contains the credential substring API Key must be set does not
trigger any re-authenticate state — its catch block has no credential
inspection and the raw message is surfaced like any other failure. -/
theorem variant_credential_error_not_reauthenticate :
    isCredentialError "API Key must be set" = true
      ∧ (Variant.handleEnhanceClick variantLoadedState (.threw "API Key must be set")).1.error
          = some "An error occurred during enhancement: API Key must be set" := by
  decide

/-- Claim C9 as amended: in the `src/index.tsx` variant, a thrown error
whose message contains either credential substring sets the
re-authentication error text and clears the API-key-ready flag, and every
other message is surfaced with its raw text appended to the enhancement
error prefix; in the `part_000` variant every thrown error, credential
substrings included, is surfaced with its raw text. -/
theorem error_classification_by_variant
    (s : Main.AppState) (hf : s.imageFile ≠ none) (hp : s.prompt ≠ "") (msg : String)
    (v : Variant.AppState) (hvf : v.imageFile ≠ none) (hvp : v.prompt ≠ "") :
    (isCredentialError msg = true →
        (Main.handleEnhanceClick s (.threw msg)).1.error = some credentialErrorText
          ∧ (Main.handleEnhanceClick s (.threw msg)).1.apiKeyReady = false)
      ∧ (isCredentialError msg = false →
        (Main.handleEnhanceClick s (.threw msg)).1.error
            = some ("An error occurred during enhancement: " ++ msg))
      ∧ (Variant.handleEnhanceClick v (.threw msg)).1.error
          = some ("An error occurred during enhancement: " ++ msg) := by
  refine ⟨fun hc => ?_, fun hc => ?_, ?_⟩
  · constructor <;> simp [Main.handleEnhanceClick, hf, hp, Main.enhanceCatch, hc]
  · simp [Main.handleEnhanceClick, hf, hp, Main.enhanceCatch, hc]
  · simp [Variant.handleEnhanceClick, hvf, hvp]

/-- Witness for the amended C9: a credential message triggers
re-authentication in the main variant, a plain network message surfaces
raw in both variants. -/
theorem error_classification_witness :
    ((Main.handleEnhanceClick loadedState (.threw "Requested entity was not found")).1.error
          = some credentialErrorText
        ∧ (Main.handleEnhanceClick loadedState (.threw "Requested entity was not found")).1.apiKeyReady
          = false)
      ∧ (Main.handleEnhanceClick loadedState (.threw "network unreachable")).1.error
          = some ("An error occurred during enhancement: " ++ "network unreachable")
      ∧ (Variant.handleEnhanceClick variantLoadedState (.threw "network unreachable")).1.error
          = some ("An error occurred during enhancement: " ++ "network unreachable") :=
  ⟨(error_classification_by_variant loadedState (by decide) (by decide)
      "Requested entity was not found" variantLoadedState (by decide) (by decide)).1 (by decide),
   (error_classification_by_variant loadedState (by decide) (by decide)
      "network unreachable" variantLoadedState (by decide) (by decide)).2.1 (by decide),
   (error_classification_by_variant loadedState (by decide) (by decide)
      "network unreachable" variantLoadedState (by decide) (by decide)).2.2⟩

/-- Claim C10: with no source image loaded, or, for the enhance pipeline,
with an empty prompt, invoking a request handler returns the state
unchanged and sends no instruction to the external service — in both
variants and both pipelines. -/
theorem request_noop_without_inputs :
    (∀ (s : Main.AppState) (outcome : CallOutcome),
        s.imageFile = none ∨ s.prompt = "" → Main.handleEnhanceClick s outcome = (s, none))
      ∧ (∀ (s : Main.AppState) (outcome : CallOutcome),
        s.bgImageFile = none → Main.handleRemoveBackgroundClick s outcome = (s, none))
      ∧ (∀ (v : Variant.AppState) (outcome : CallOutcome),
        v.imageFile = none ∨ v.prompt = "" → Variant.handleEnhanceClick v outcome = (v, none))
      ∧ (∀ (v : Variant.AppState) (outcome : CallOutcome),
        v.bgImageFile = none → Variant.handleRemoveBackgroundClick v outcome = (v, none)) := by
  refine ⟨?_, ?_, ?_, ?_⟩
  · intro s outcome h
    simp only [Main.handleEnhanceClick]
    rw [if_pos h]
  · intro s outcome h
    simp only [Main.handleRemoveBackgroundClick]
    rw [if_pos h]
  · intro v outcome h
    simp only [Variant.handleEnhanceClick]
    rw [if_pos h]
  · intro v outcome h
    simp only [Variant.handleRemoveBackgroundClick]
    rw [if_pos h]

/-- Witness for C10: from the initial state of each variant, neither
request handler changes anything or sends an instruction. -/
theorem request_noop_witness :
    Main.handleEnhanceClick Main.initialState (CallOutcome.threw "boom")
        = (Main.initialState, none)
      ∧ Main.handleRemoveBackgroundClick Main.initialState (CallOutcome.threw "boom")
        = (Main.initialState, none)
      ∧ Variant.handleEnhanceClick Variant.initialState (CallOutcome.threw "boom")
        = (Variant.initialState, none)
      ∧ Variant.handleRemoveBackgroundClick Variant.initialState (CallOutcome.threw "boom")
        = (Variant.initialState, none) :=
  ⟨request_noop_without_inputs.1 Main.initialState (CallOutcome.threw "boom") (Or.inl (by decide)),
   request_noop_without_inputs.2.1 Main.initialState (CallOutcome.threw "boom") (by decide),
   request_noop_without_inputs.2.2.1 Variant.initialState (CallOutcome.threw "boom") (Or.inl (by decide)),
   request_noop_without_inputs.2.2.2 Variant.initialState (CallOutcome.threw "boom") (by decide)⟩

end PhotoEnhancer
